import Mathlib

/-!
Verification of the sidecar process supervisor (`src/main/python-bridge.ts`,
class `PythonBridge`) against its natural-language specification.

The file shallowly embeds the supervisor's data model and operations:

* the job-progress records exchanged with the worker
  (`DownloadProgress` in `src/shared/types.ts`);
* the pull-model reconciliation loop (the `setInterval` callback installed
  by `startPolling`, pull-model version of the file);
* the restart policy (the `'exit'` handler registered in `start()` and the
  post-`waitForServer` `Ready` transition), as an explicit transition system
  with realizability conditions on event traces;
* the request client (`request`, `getVideoInfo`, `startDownload`,
  `cancelDownload`), with the worker's HTTP API as an oracle and the list of
  issued HTTP calls made explicit;
* the readiness prober (`waitForServer`);
* the pre-spawn executable verification and the shutdown path (`stop`).

Host-visible emissions and worker-directed calls are reified as an `Action`
type so that delivery counts and orderings can be stated and proved.
-/

namespace YtHelper

/-- Decidable equality for `Except`, used to evaluate the embedded
operations on concrete inputs. -/
def exceptDecEq {ε α : Type} [DecidableEq ε] [DecidableEq α] :
    DecidableEq (Except ε α) := fun a b =>
  match a, b with
  | Except.ok x, Except.ok y =>
    if h : x = y then isTrue (by rw [h])
    else isFalse (by intro hc; cases hc; exact h rfl)
  | Except.ok _, Except.error _ => isFalse (by intro hc; cases hc)
  | Except.error _, Except.ok _ => isFalse (by intro hc; cases hc)
  | Except.error x, Except.error y =>
    if h : x = y then isTrue (by rw [h])
    else isFalse (by intro hc; cases hc; exact h rfl)

instance {ε α : Type} [DecidableEq ε] [DecidableEq α] :
    DecidableEq (Except ε α) := exceptDecEq

/-- Job status values, from the `DownloadProgress.status` union in
`src/shared/types.ts`:
`'pending' | 'downloading' | 'processing' | 'complete' | 'error' | 'cancelled'`. -/
inductive Status where
  | pending
  | downloading
  | processing
  | complete
  | error
  | cancelled
deriving DecidableEq, Repr

/-- A status is terminal when it is one of complete, error, cancelled. -/
def Status.isTerminal : Status → Bool
  | .complete => true
  | .error => true
  | .cancelled => true
  | _ => false

/-- One job status record, shaped as the `DownloadProgress` interface of
`src/shared/types.ts` (optional fields `speed`, `eta`, `filename`, `error`
are omitted: no supervisor control flow reads them). -/
structure DownloadProgress where
  downloadId : String
  status : Status
  progress : Nat
deriving DecidableEq, Repr

/-- Observable effects of the supervisor: events emitted to the host through
the `EventEmitter` interface, plus the calls it directs at the worker or at
the timer queue.  The four `status`-event payload shapes that occur in
`python-bridge.ts` are distinguished by constructor:

* `emitStatusReady` is `emit('status', { ready: true })`;
* `emitStatusRetrying a m` is the `{ ready: false, error: 'Backend crashed.
  Retrying (a/m)...' }` interim notice of the exit handler;
* `emitStatusFailed msg` is the terminal `{ ready: false, error: 'Backend
  failed to start after m attempts. Last error: ...' }` notice;
* `emitStatusError msg` is any other `{ ready: false, error: msg }` status
  (the `catch` block of `start()` and the process `'error'` handler).

`clearCall id` is the best-effort `clearDownload(id)` fetch whose failure the
code ignores (`.catch(() => {})`); `scheduleRestart n d` is the
`setTimeout(() => this.start(), d)` queued for the n-th consecutive failure. -/
inductive Action where
  | emitStatusReady
  | emitStatusRetrying (attempt maxR : Nat)
  | emitStatusFailed (msg : String)
  | emitStatusError (msg : String)
  | emitProgress (p : DownloadProgress)
  | emitComplete (p : DownloadProgress)
  | emitError (p : DownloadProgress)
  | clearCall (downloadId : String)
  | scheduleRestart (attempt delayMs : Nat)
deriving DecidableEq, Repr

/-- An action is host-facing when it is an event delivered through the
emitter (as opposed to a worker call or a queued timer). -/
def Action.isHostEvent : Action → Bool
  | .emitStatusReady => true
  | .emitStatusRetrying _ _ => true
  | .emitStatusFailed _ => true
  | .emitStatusError _ => true
  | .emitProgress _ => true
  | .emitComplete _ => true
  | .emitError _ => true
  | .clearCall _ => false
  | .scheduleRestart _ _ => false

/-- Recognizer for the queued-restart action. -/
def Action.isScheduleRestart : Action → Bool
  | .scheduleRestart _ _ => true
  | _ => false

/-- Recognizer for the terminal restart-exhaustion failure status event. -/
def Action.isTerminalFailure : Action → Bool
  | .emitStatusFailed _ => true
  | _ => false

/-! ## Job Tracker: the pull-model reconciliation loop

The pull-model `PythonBridge` keeps `activeDownloads : Set<string>` and polls
`/api/download/progress` every 500 ms from the `setInterval` callback of
`startPolling`.  The JS `Set` is modelled as a duplicate-free `List String`
(insertion checks membership, deletion is `List.erase`). -/

/-- Tracker-relevant state of the pull-model bridge: the `ready` flag and the
`activeDownloads` tracked set. -/
structure TrackerState where
  ready : Bool
  activeDownloads : List String
deriving DecidableEq, Repr

/-- One iteration of the `for (const progress of progressList)` loop body in
`startPolling`: `complete` emits the complete event, deletes the identifier,
and issues the failure-ignored clear call; `error` likewise with the error
event; `cancelled` deletes and clears without emitting any event; every
other status emits a progress event.  The record's membership in the tracked
set is never consulted. -/
def processRecord (tracked : List String) (p : DownloadProgress) :
    List String × List Action :=
  if p.status = Status.complete then
    (tracked.erase p.downloadId, [Action.emitComplete p, Action.clearCall p.downloadId])
  else if p.status = Status.error then
    (tracked.erase p.downloadId, [Action.emitError p, Action.clearCall p.downloadId])
  else if p.status = Status.cancelled then
    (tracked.erase p.downloadId, [Action.clearCall p.downloadId])
  else
    (tracked, [Action.emitProgress p])

/-- The whole `for`-loop over the progress list returned by the worker,
threading the tracked set through the per-record deletions. -/
def processRecords (tracked : List String) :
    List DownloadProgress → List String × List Action
  | [] => (tracked, [])
  | p :: ps =>
    let r1 := processRecord tracked p
    let r2 := processRecords r1.1 ps
    (r2.1, r1.2 ++ r2.2)

/-- One tick of the poll interval.  The callback returns immediately when the
bridge is not ready or no download is tracked; `response` is `none` when the
progress fetch failed or returned a non-ok status (the catch/`response.ok`
guard only logs in that case), and `some progressList` otherwise. -/
def pollTick (s : TrackerState) (response : Option (List DownloadProgress)) :
    TrackerState × List Action :=
  if s.ready = false ∨ s.activeDownloads = [] then (s, [])
  else
    match response with
    | none => (s, [])
    | some progressList =>
      let r := processRecords s.activeDownloads progressList
      ({ s with activeDownloads := r.1 }, r.2)

/-! ## Restart Policy

The `'exit'` handler registered by `start()` (pull-model version, lines
100-137) and the `Ready` transition after `waitForServer` resolves (lines
139-144) are embedded as a transition system.  Events carry realizability
conditions — a process can only exit while it is running, a queued restart
can only fire while one is pending — enforced by `stepSup` returning
`none` for impossible events. -/

/-- Maximum number of consecutive restart attempts (`this.maxRetries = 3`). -/
def maxRetries : Nat := 3

/-- Restart-relevant supervisor state: the instance fields `ready`,
`starting`, `shouldRestart`, `retryCount`, `lastError` of `PythonBridge`,
plus two realizability facts about the environment — whether a live child
process exists (`running`) and whether a `setTimeout(() => this.start(), d)`
restart is queued (`pendingRestart`). -/
structure SupervisorState where
  ready : Bool
  starting : Bool
  shouldRestart : Bool
  retryCount : Nat
  lastError : String
  running : Bool
  pendingRestart : Bool
deriving DecidableEq, Repr

/-- The crash test of the exit handler: `code !== 0 && code !== null`,
where a `null` exit code is modelled as `none`. -/
def isCrashExit : Option Int → Bool
  | none => false
  | some c => c != 0

/-- Message of the interim retry notice emitted before scheduling the
n-th restart. -/
def crashMessage (attempt : Nat) : String :=
  "Backend crashed. Retrying (" ++ toString attempt ++ "/" ++ toString maxRetries ++ ")..."

/-- Message of the terminal failure status emitted once the retry budget is
exhausted; an empty `lastError` falls back to the generic text, mirroring
`this.lastError || 'Unknown error'`. -/
def failedMessage (lastError : String) : String :=
  "Backend failed to start after " ++ toString maxRetries ++ " attempts. Last error: " ++
    (if lastError = "" then "Unknown error" else lastError)

/-- The `'exit'` handler: clears `ready`/`starting` (and the process is no
longer running), then, when auto-restart is on and the exit code is a crash,
increments `retryCount`; while the incremented count stays within
`maxRetries` it emits the retry notice and queues one restart with delay
`min(2000 * 2^(retryCount - 1), 16000)` (the incremented count is the attempt
number), otherwise it emits the terminal failure status and queues nothing. -/
def handleExit (s : SupervisorState) (code : Option Int) :
    SupervisorState × List Action :=
  let s0 : SupervisorState :=
    { s with ready := false, starting := false, running := false }
  if s.shouldRestart && isCrashExit code then
    if s.retryCount + 1 ≤ maxRetries then
      ({ s0 with retryCount := s.retryCount + 1, pendingRestart := true },
       [Action.emitStatusRetrying (s.retryCount + 1) maxRetries,
        Action.scheduleRestart (s.retryCount + 1) (min (2000 * 2 ^ s.retryCount) 16000)])
    else
      ({ s0 with retryCount := s.retryCount + 1 },
       [Action.emitStatusFailed (failedMessage s.lastError)])
  else (s0, [])

/-- The `Ready` transition at the end of a successful `start()`:
`this.ready = true; this.starting = false; this.retryCount = 0;
this.emit('status', { ready: true })`. -/
def handleReady (s : SupervisorState) : SupervisorState × List Action :=
  ({ s with ready := true, starting := false, retryCount := 0 },
   [Action.emitStatusReady])

/-- Events driving the restart policy: a process exit with the given code, a
queued restart timer firing (its `start()` call respawning a child), the
readiness probe succeeding, and `stop()` being requested. -/
inductive SupEvent where
  | procExit (code : Option Int)
  | restartFires
  | becameReady
  | stopRequested
deriving DecidableEq, Repr

/-- One supervisor step.  Returns `none` for events that cannot occur in the
given state: a process exit needs a running process, a restart firing needs
a queued restart, and readiness needs a running process.  `stopRequested`
mirrors the head of `stop()`: auto-restart off, not ready, counter cleared. -/
def stepSup (s : SupervisorState) : SupEvent → Option (SupervisorState × List Action)
  | .procExit code => if s.running then some (handleExit s code) else none
  | .restartFires =>
    if s.pendingRestart then
      some ({ s with pendingRestart := false, running := true, starting := true }, [])
    else none
  | .becameReady => if s.running then some (handleReady s) else none
  | .stopRequested =>
    some ({ s with shouldRestart := false, ready := false, retryCount := 0 }, [])

/-- Actions produced by a sequence of supervisor events, skipping events that
cannot occur in the state they are offered in. -/
def runSup (s : SupervisorState) : List SupEvent → List Action
  | [] => []
  | e :: es =>
    match stepSup s e with
    | none => runSup s es
    | some r => r.2 ++ runSup r.1 es

/-- State of the supervisor right after the first successful spawn inside
`start()`: not yet ready, starting, auto-restart on, zero consecutive
failures, child running, no restart queued. -/
def initSup : SupervisorState :=
  { ready := false, starting := true, shouldRestart := true, retryCount := 0,
    lastError := "", running := true, pendingRestart := false }

/-- Number of terminal restart-exhaustion failure statuses in an action
list. -/
def terminalFailureCount : List Action → Nat
  | [] => 0
  | a :: as => (if a.isTerminalFailure then 1 else 0) + terminalFailureCount as

/-! ## Request Client

`request` (pull-model version, lines 395-416) issues one HTTP call to the
worker once ready; the worker's local API is modelled as an oracle from
endpoint to response, and each operation also returns the list of endpoints
it actually fetched, making "no network I/O" statable. -/

/-- A parsed worker HTTP response: `ok`/`status` from the fetch `Response`,
the `error` and `message` fields of the decoded JSON body (absent modelled
as `none`), and the payload relevant to the caller (for
`/api/download/start`, the `downloadId`). -/
structure HttpResponse where
  ok : Bool
  status : Nat
  errorField : Option String
  messageField : Option String
  body : String
deriving DecidableEq, Repr

/-- The worker's local HTTP API as an oracle from endpoint to response. -/
def Net : Type := String → HttpResponse

/-- Errors surfaced by the request client: `notReady` is the
`'Python server is not ready'` throw, `workerRequest msg` the throw built
from `data.error || data.message || 'Request failed with status N'`. -/
inductive BridgeError where
  | notReady
  | workerRequest (msg : String)
deriving DecidableEq, Repr

/-- JavaScript truthiness for the optional string fields of the response
body: an absent field and an empty string are both falsy. -/
def jsTruthy : Option String → Option String
  | none => none
  | some str => if str = "" then none else some str

/-- The error message selected on a non-ok response:
`data.error || data.message || 'Request failed with status ...'`. -/
def workerErrorMessage (resp : HttpResponse) : String :=
  ((jsTruthy resp.errorField).orElse fun _ => jsTruthy resp.messageField).getD
    ("Request failed with status " ++ toString resp.status)

/-- `PythonBridge.request`: throws `notReady` before any fetch when the
bridge is not ready; otherwise fetches the endpoint once and either returns
the body or throws `workerRequest`.  The second component lists the
endpoints fetched during the call. -/
def request (ready : Bool) (net : Net) (endpoint : String) :
    Except BridgeError String × List String :=
  if ready = false then (Except.error BridgeError.notReady, [])
  else
    let resp := net endpoint
    if resp.ok = false then
      (Except.error (BridgeError.workerRequest (workerErrorMessage resp)), [endpoint])
    else (Except.ok resp.body, [endpoint])

/-- Tracker-facing state of the pull-model bridge used by the public
operations: readiness, the tracked set, and whether the poll interval is
installed (`this.pollInterval !== null`). -/
structure BridgeState where
  ready : Bool
  activeDownloads : List String
  polling : Bool
deriving DecidableEq, Repr

/-- Insertion into the JS `Set` of tracked identifiers: a no-op when the
identifier is already present. -/
def jsSetAdd (l : List String) (x : String) : List String :=
  if x ∈ l then l else l ++ [x]

/-- `PythonBridge.getVideoInfo`: a plain `request` to `/api/video/info`
(the url travels in the request body, which carries no control flow). -/
def getVideoInfo (ready : Bool) (net : Net) (_url : String) :
    Except BridgeError String × List String :=
  request ready net "/api/video/info"

/-- `PythonBridge.startDownload` (pull-model version, lines 425-436):
`await this.request('/api/download/start', ...)`; a throw propagates before
the tracking lines run, so the state is returned unchanged; on success the
returned `downloadId` is added to `activeDownloads` and `startPolling()`
ensures the poll interval is installed. -/
def startDownload (s : BridgeState) (net : Net) :
    BridgeState × Except BridgeError String × List String :=
  match request s.ready net "/api/download/start" with
  | (Except.error e, reqs) => (s, Except.error e, reqs)
  | (Except.ok downloadId, reqs) =>
    ({ s with activeDownloads := jsSetAdd s.activeDownloads downloadId,
              polling := true },
     Except.ok downloadId, reqs)

/-- `PythonBridge.cancelDownload` (pull-model version, lines 438-444):
`await this.request('/api/download/cancel', ...)` followed by
`this.activeDownloads.delete(downloadId)`; a throw from the awaited request
propagates before the delete runs. -/
def cancelDownload (s : BridgeState) (net : Net) (downloadId : String) :
    BridgeState × Except BridgeError Unit × List String :=
  match request s.ready net "/api/download/cancel" with
  | (Except.error e, reqs) => (s, Except.error e, reqs)
  | (Except.ok _, reqs) =>
    ({ s with activeDownloads := s.activeDownloads.erase downloadId },
     Except.ok Unit.unit, reqs)

/-! ## Readiness Prober and start-attempt failure handling -/

/-- Startup errors thrown inside `start()` before the `Ready` transition,
named after the spec's taxonomy; each carries the data interpolated into the
corresponding `Error` message of the code. -/
inductive StartError where
  | executableNotFound (path : String)
  | corruptExecutable (size : Nat)
  | terminatedDuringStartup (exitCode : Option Int)
  | readinessTimeout (ms : Nat)
deriving DecidableEq, Repr

/-- Message text of each startup error, as built in `python-bridge.ts`. -/
def startErrorMessage : StartError → String
  | .executableNotFound p => "Python executable not found at: " ++ p
  | .corruptExecutable size =>
    "Python executable appears corrupt (size: " ++ toString size ++ " bytes)"
  | .terminatedDuringStartup _ => "Python process terminated unexpectedly"
  | .readinessTimeout ms =>
    "Python server failed to start after " ++ toString ms ++ "ms"

/-- Environment of one readiness-probing run: before probe `i` the child is
either still alive or has exited with `exitCode i`, and probe `i` either
gets an HTTP-success health response or not. -/
structure ProbeEnv where
  alive : Nat → Bool
  exitCode : Nat → Option Int
  probeOk : Nat → Bool

/-- Loop body of `waitForServer`: at each remaining attempt, first abort
with the terminated-during-startup error if the process is gone, then
return on a successful health probe, else sleep and continue; exhausting the
budget throws the readiness timeout carrying `maxAttempts * intervalMs`. -/
def waitForServerAux (env : ProbeEnv) (intervalMs totalMs : Nat) :
    Nat → Nat → Except StartError Nat
  | 0, _ => Except.error (StartError.readinessTimeout totalMs)
  | fuel + 1, i =>
    if env.alive i = false then
      Except.error (StartError.terminatedDuringStartup (env.exitCode i))
    else if env.probeOk i then Except.ok ((i + 1) * intervalMs)
    else waitForServerAux env intervalMs totalMs fuel (i + 1)

/-- `PythonBridge.waitForServer` with its default budget of 60 attempts at
500 ms; on success it returns the elapsed `(i + 1) * intervalMs`. -/
def waitForServer (env : ProbeEnv) (maxAttempts intervalMs : Nat) :
    Except StartError Nat :=
  waitForServerAux env intervalMs (maxAttempts * intervalMs) maxAttempts 0

/-- Host-visible actions of one `start()` attempt after a successful spawn,
as a function of the probe environment: success runs the `Ready` transition
and emits the ready status; any throw lands in the `catch` block, which
emits one `{ ready: false, error }` status and rethrows.  Restart scheduling
happens only inside `handleExit` — the exit handler — never on this path. -/
def startAttemptActions (env : ProbeEnv) : List Action :=
  match waitForServer env 60 500 with
  | Except.ok _ => [Action.emitStatusReady]
  | Except.error e => [Action.emitStatusError (startErrorMessage e)]

/-! ## Process Launcher: pre-spawn executable verification -/

/-- Minimum plausible size of the bundled executable:
`const MIN_EXE_SIZE = 10 * 1024 * 1024`. -/
def MIN_EXE_SIZE : Nat := 10 * 1024 * 1024

/-- The verification at the top of `start()` (lines 45-59): missing path
throws `ExecutableNotFoundError`; in packaged mode (`!is.dev`) a size
strictly below `MIN_EXE_SIZE` throws `CorruptExecutableError`
(`if (stats.size < MIN_EXE_SIZE) throw ...`); development mode performs no
size check. -/
def verifyExecutable (isDev pathExists : Bool) (size : Nat) (path : String) :
    Except StartError Unit :=
  if pathExists = false then Except.error (StartError.executableNotFound path)
  else if isDev = false ∧ size < MIN_EXE_SIZE then
    Except.error (StartError.corruptExecutable size)
  else Except.ok Unit.unit

/-! ## Shutdown Coordinator

`stop()` (pull-model version, lines 161-215): after disabling auto-restart,
cancelling tracked jobs and clearing the tracked set, it returns immediately
when no process handle exists; otherwise it builds a promise with three
callbacks — the `once('exit')` listener, the 3000 ms force-kill timer, and
the 5000 ms overall timer.  The scenario is parametrized by the (optional)
time at which the child's exit event fires. -/

/-- The three callbacks `stop()` registers on the promise path. -/
inductive StopCallback where
  | exitListener
  | forceKillTimer
  | overallTimer
deriving DecidableEq, Repr

/-- Firing time of each callback in a scenario where the child's exit event
fires at `exitTime` (or never, for `none`): the exit listener fires with the
exit event, the two timers at their fixed 3000 ms and 5000 ms deadlines. -/
def StopCallback.fires (exitTime : Option Nat) : StopCallback → Option Nat
  | .exitListener => exitTime
  | .forceKillTimer => some 3000
  | .overallTimer => some 5000

/-- Whether the callback resolves the stop promise: the exit listener and
the overall timer call `resolve()`; the force-kill timer only sends
`SIGKILL`. -/
def StopCallback.resolvesStop : StopCallback → Bool
  | .exitListener => true
  | .forceKillTimer => false
  | .overallTimer => true

/-- Whether the callback clears the process handle: both resolving callbacks
run `this.process = null` immediately before `resolve()`. -/
def StopCallback.clearsHandle : StopCallback → Bool
  | .exitListener => true
  | .forceKillTimer => false
  | .overallTimer => true

/-- Firing times of the callbacks that resolve the stop promise. -/
def stopResolveTimes (exitTime : Option Nat) : List Nat :=
  [StopCallback.exitListener, StopCallback.forceKillTimer,
   StopCallback.overallTimer].filterMap
    fun c => if c.resolvesStop then c.fires exitTime else none

/-- Outcome of `stop()`: when it resolves and what the process handle holds
at that moment. -/
structure StopOutcome where
  resolveTime : Nat
  handleAtResolve : Option Unit
deriving DecidableEq, Repr

/-- The resolution of `stop()`: with no process handle it resolves at once
(the handle already `null`); otherwise the promise resolves at the first
resolving callback — the minimum of their firing times — and, since every
resolving callback clears the handle before resolving, the handle is `null`
at that moment. -/
def stopModel (hasProc : Bool) (exitTime : Option Nat) : StopOutcome :=
  if hasProc = false then { resolveTime := 0, handleAtResolve := none }
  else
    { resolveTime := (stopResolveTimes exitTime).foldr min 5000,
      handleAtResolve := none }

/-! ## Helper lemmas -/

/-- Counting terminal failure statuses distributes over list append. -/
theorem terminalFailureCount_append (as bs : List Action) :
    terminalFailureCount (as ++ bs) =
      terminalFailureCount as + terminalFailureCount bs := by
  induction as with
  | nil => simp [terminalFailureCount]
  | cons a as ih =>
    simp [terminalFailureCount, ih]
    omega

/-- From a state with no running child and no queued restart, no event can
fire except a stop request, so no terminal failure status is ever emitted. -/
theorem dead_no_failures (es : List SupEvent) :
    ∀ s : SupervisorState, s.running = false → s.pendingRestart = false →
      terminalFailureCount (runSup s es) = 0 := by
  induction es with
  | nil => intro s _ _; simp [runSup, terminalFailureCount]
  | cons e es ih =>
    intro s hr hp
    cases e with
    | procExit code => simpa [runSup, stepSup, hr] using ih s hr hp
    | restartFires => simpa [runSup, stepSup, hp] using ih s hr hp
    | becameReady => simpa [runSup, stepSup, hr] using ih s hr hp
    | stopRequested =>
      have hrun : runSup s (SupEvent.stopRequested :: es) =
          runSup { s with shouldRestart := false, ready := false, retryCount := 0 } es := by
        simp [runSup, stepSup]
      rw [hrun]
      exact ih _ hr hp

/-- The exit handler always leaves the child not running. -/
theorem handleExit_running_false (s : SupervisorState) (code : Option Int) :
    (handleExit s code).1.running = false := by
  unfold handleExit
  by_cases hc : (s.shouldRestart && isCrashExit code) = true
  · by_cases hle : s.retryCount + 1 ≤ maxRetries
    · simp [hc, hle]
    · simp [hc, hle]
  · simp [hc]

/-- The exit handler emits either no terminal failure status, or exactly one
while leaving the queued-restart flag as it found it. -/
theorem handleExit_failure_count (s : SupervisorState) (code : Option Int) :
    terminalFailureCount (handleExit s code).2 = 0 ∨
    (terminalFailureCount (handleExit s code).2 = 1 ∧
      (handleExit s code).1.pendingRestart = s.pendingRestart) := by
  unfold handleExit
  by_cases hc : (s.shouldRestart && isCrashExit code) = true
  · by_cases hle : s.retryCount + 1 ≤ maxRetries
    · left
      simp [hc, hle, terminalFailureCount, Action.isTerminalFailure]
    · right
      constructor
      · simp [hc, hle, terminalFailureCount, Action.isTerminalFailure]
      · simp [hc, hle]
  · left
    simp [hc, terminalFailureCount]

/-- Along any realizable event sequence from a state where a running child
excludes a queued restart, at most one terminal failure status is emitted. -/
theorem failures_at_most_one (es : List SupEvent) :
    ∀ s : SupervisorState, s.running = false ∨ s.pendingRestart = false →
      terminalFailureCount (runSup s es) ≤ 1 := by
  induction es with
  | nil => intro s _; simp [runSup, terminalFailureCount]
  | cons e es ih =>
    intro s hinv
    cases e with
    | procExit code =>
      by_cases hr : s.running
      · have hp : s.pendingRestart = false := by
          rcases hinv with h | h
          · rw [hr] at h; cases h
          · exact h
        have hrun : runSup s (SupEvent.procExit code :: es) =
            (handleExit s code).2 ++ runSup (handleExit s code).1 es := by
          simp [runSup, stepSup, hr]
        rw [hrun, terminalFailureCount_append]
        rcases handleExit_failure_count s code with h0 | ⟨h1, hpr⟩
        · have := ih (handleExit s code).1 (Or.inl (handleExit_running_false s code))
          omega
        · have hrest := dead_no_failures es (handleExit s code).1
            (handleExit_running_false s code) (by rw [hpr]; exact hp)
          omega
      · have hrun : runSup s (SupEvent.procExit code :: es) = runSup s es := by
          simp [runSup, stepSup, hr]
        rw [hrun]
        exact ih s hinv
    | restartFires =>
      by_cases hp : s.pendingRestart
      · have hrun : runSup s (SupEvent.restartFires :: es) =
            runSup { s with pendingRestart := false, running := true, starting := true } es := by
          simp [runSup, stepSup, hp]
        rw [hrun]
        exact ih _ (Or.inr rfl)
      · have hrun : runSup s (SupEvent.restartFires :: es) = runSup s es := by
          simp [runSup, stepSup, hp]
        rw [hrun]
        exact ih s hinv
    | becameReady =>
      by_cases hr : s.running
      · have hp : s.pendingRestart = false := by
          rcases hinv with h | h
          · rw [hr] at h; cases h
          · exact h
        have hrun : runSup s (SupEvent.becameReady :: es) =
            (handleReady s).2 ++ runSup (handleReady s).1 es := by
          simp [runSup, stepSup, hr]
        rw [hrun, terminalFailureCount_append]
        have hcount : terminalFailureCount (handleReady s).2 = 0 := by
          simp [handleReady, terminalFailureCount, Action.isTerminalFailure]
        have := ih (handleReady s).1 (Or.inr hp)
        omega
      · have hrun : runSup s (SupEvent.becameReady :: es) = runSup s es := by
          simp [runSup, stepSup, hr]
        rw [hrun]
        exact ih s hinv
    | stopRequested =>
      have hrun : runSup s (SupEvent.stopRequested :: es) =
          runSup { s with shouldRestart := false, ready := false, retryCount := 0 } es := by
        simp [runSup, stepSup]
      rw [hrun]
      rcases hinv with h | h
      · exact ih _ (Or.inl h)
      · exact ih _ (Or.inr h)

/-- On an ok response the request client fetches exactly the one endpoint it
was asked for. -/
theorem request_ok_fetches (ready : Bool) (net : Net) (ep b : String)
    (reqs : List String) (h : request ready net ep = (Except.ok b, reqs)) :
    reqs = [ep] := by
  by_cases hr : ready = false
  · simp [request, hr] at h
  · by_cases ho : (net ep).ok = false
    · simp [request, hr, ho] at h
    · simp [request, hr, ho] at h
      exact h.2.symm

/-- When every probe fails and the child stays alive, the readiness loop
runs out its whole budget and throws the timeout error. -/
theorem waitForServerAux_all_fail (env : ProbeEnv) (intervalMs totalMs : Nat)
    (halive : ∀ i, env.alive i = true) (hprobe : ∀ i, env.probeOk i = false) :
    ∀ (fuel i : Nat), waitForServerAux env intervalMs totalMs fuel i =
      Except.error (StartError.readinessTimeout totalMs) := by
  intro fuel
  induction fuel with
  | zero => intro i; rfl
  | succ n ih =>
    intro i
    simpa [waitForServerAux, halive i, hprobe i] using ih (i + 1)

/-! ## Claims -/

/-- Claim C1, counterexample.  The claim says the pull-model loop acts only
on records whose identifier is in the tracked set, and that after a terminal
event for an identifier any later record carrying it is ignored.  On the
code, with jobs "a" and "b" tracked, a first tick delivers the terminal
complete event for "a" and removes it from the tracked set; a second tick
receiving the same record for the now-untracked "a" (the best-effort clear
may have failed) delivers the complete event for "a" a second time. -/
theorem C1_counterexample :
    "a" ∉ (pollTick { ready := true, activeDownloads := ["a", "b"] }
        (some [{ downloadId := "a", status := Status.complete, progress := 100 }])).1.activeDownloads ∧
    (pollTick (pollTick { ready := true, activeDownloads := ["a", "b"] }
        (some [{ downloadId := "a", status := Status.complete, progress := 100 }])).1
        (some [{ downloadId := "a", status := Status.complete, progress := 100 }])).2 =
      [Action.emitComplete { downloadId := "a", status := Status.complete, progress := 100 },
       Action.clearCall "a"] := by
  decide

/-- Claim C1 (amended): the pull-model loop acts on received records only
when the bridge is ready and the tracked set is nonempty, but it then
processes every record in the list regardless of membership — the actions a
record produces do not depend on the tracked set at all — and a terminal
record removes its identifier from the tracked set (a no-op when it was not
tracked). -/
theorem C1_poll_loop_nonselective :
    (∀ (s : TrackerState) (response : Option (List DownloadProgress)),
        s.ready = false ∨ s.activeDownloads = [] → pollTick s response = (s, [])) ∧
    (∀ (t1 t2 : List String) (p : DownloadProgress),
        (processRecord t1 p).2 = (processRecord t2 p).2) ∧
    (∀ (t : List String) (p : DownloadProgress), p.status.isTerminal = true →
        (processRecord t p).1 = t.erase p.downloadId) := by
  refine ⟨?_, ?_, ?_⟩
  · intro s response h
    simp [pollTick, h]
  · intro t1 t2 p
    cases hp : p.status <;> simp [processRecord, hp]
  · intro t p h
    cases hp : p.status <;> rw [hp] at h <;>
      first
        | exact absurd h (by decide)
        | simp [processRecord, hp]

/-- Claim C1, witness: the amended theorem applied at a stopped tick, a
record processed under two different tracked sets, and a terminal record
removing its identifier. -/
theorem C1_poll_loop_nonselective_witness :
    pollTick { ready := false, activeDownloads := ["a"] } (some []) =
      ({ ready := false, activeDownloads := ["a"] }, []) ∧
    (processRecord ["a"] { downloadId := "b", status := Status.complete, progress := 100 }).2 =
      (processRecord [] { downloadId := "b", status := Status.complete, progress := 100 }).2 ∧
    (processRecord ["a"] { downloadId := "a", status := Status.cancelled, progress := 0 }).1 =
      List.erase ["a"] "a" :=
  ⟨C1_poll_loop_nonselective.1 _ _ (Or.inl rfl),
   C1_poll_loop_nonselective.2.1 _ _ _,
   C1_poll_loop_nonselective.2.2 _ _ rfl⟩

/-- Claim C2, counterexample.  The claim says every terminal status —
including cancelled — forwards its terminal event to the host.  On the code,
a cancelled record for a tracked job removes the identifier and issues the
clear call but delivers no host-facing event at all. -/
theorem C2_counterexample :
    (pollTick { ready := true, activeDownloads := ["a"] }
        (some [{ downloadId := "a", status := Status.cancelled, progress := 0 }])).2 =
      [Action.clearCall "a"] ∧
    ∀ a ∈ (pollTick { ready := true, activeDownloads := ["a"] }
        (some [{ downloadId := "a", status := Status.cancelled, progress := 0 }])).2,
      a.isHostEvent = false := by
  decide

/-- Claim C2 (amended): for a record with status complete the loop forwards
the complete event, removes the identifier and issues the failure-ignored
clear call; for error likewise with the error event; for cancelled it
removes the identifier and issues the clear call but forwards no event to
the host. -/
theorem C2_terminal_record_handling (tracked : List String) (p : DownloadProgress) :
    (p.status = Status.complete →
      processRecord tracked p =
        (tracked.erase p.downloadId,
         [Action.emitComplete p, Action.clearCall p.downloadId])) ∧
    (p.status = Status.error →
      processRecord tracked p =
        (tracked.erase p.downloadId,
         [Action.emitError p, Action.clearCall p.downloadId])) ∧
    (p.status = Status.cancelled →
      processRecord tracked p =
        (tracked.erase p.downloadId, [Action.clearCall p.downloadId]) ∧
      ∀ a ∈ (processRecord tracked p).2, a.isHostEvent = false) := by
  refine ⟨?_, ?_, ?_⟩
  · intro h; simp [processRecord, h]
  · intro h; simp [processRecord, h]
  · intro h
    constructor
    · simp [processRecord, h]
    · intro a ha
      simp [processRecord, h] at ha
      subst ha
      rfl

/-- Claim C2, witness: the amended theorem applied to a cancelled record of
a tracked job. -/
theorem C2_terminal_record_handling_witness :
    processRecord ["a"] { downloadId := "a", status := Status.cancelled, progress := 0 } =
      (List.erase ["a"] "a", [Action.clearCall "a"]) :=
  ((C2_terminal_record_handling ["a"] _).2.2 rfl).1

/-- Claim C3: while auto-restart is enabled, a non-null nonzero exit as the
n-th consecutive failure with n within `maxRetries` emits the interim retry
notice and schedules exactly one restart with delay
`min(2000 * 2^(n-1), 16000)`; once `maxRetries` consecutive failures have
occurred with no intervening ready transition, the next crash schedules
nothing and emits the terminal failure status carrying the last diagnostic
error; along any realizable event sequence this terminal status is emitted
at most once. -/
theorem C3_restart_policy :
    (∀ (s : SupervisorState) (code : Option Int),
        s.shouldRestart = true → isCrashExit code = true →
        (s.retryCount + 1 ≤ maxRetries →
            (handleExit s code).2 =
              [Action.emitStatusRetrying (s.retryCount + 1) maxRetries,
               Action.scheduleRestart (s.retryCount + 1)
                 (min (2000 * 2 ^ s.retryCount) 16000)]) ∧
        (maxRetries < s.retryCount + 1 →
            (handleExit s code).2 =
              [Action.emitStatusFailed (failedMessage s.lastError)] ∧
            ∀ a ∈ (handleExit s code).2, a.isScheduleRestart = false)) ∧
    (∀ (s : SupervisorState) (es : List SupEvent),
        s.running = false ∨ s.pendingRestart = false →
        terminalFailureCount (runSup s es) ≤ 1) := by
  constructor
  · intro s code hsr hcrash
    constructor
    · intro hle
      simp [handleExit, hsr, hcrash, hle]
    · intro hgt
      have hnle : ¬ s.retryCount + 1 ≤ maxRetries := by omega
      constructor
      · simp [handleExit, hsr, hcrash, hnle]
      · intro a ha
        simp [handleExit, hsr, hcrash, hnle] at ha
        subst ha
        rfl
  · intro s es hinv
    exact failures_at_most_one es s hinv

/-- Claim C3, witness: the first crash from the freshly spawned state
schedules attempt 1 with delay 2000 ms, and the trace of four consecutive
crashes emits exactly one terminal failure status. -/
theorem C3_restart_policy_witness :
    (handleExit initSup (some 1)).2 =
      [Action.emitStatusRetrying 1 3, Action.scheduleRestart 1 2000] ∧
    terminalFailureCount (runSup initSup
      [SupEvent.procExit (some 1), SupEvent.restartFires,
       SupEvent.procExit (some 1), SupEvent.restartFires,
       SupEvent.procExit (some 1), SupEvent.restartFires,
       SupEvent.procExit (some 1)]) ≤ 1 := by
  constructor
  · have h := (C3_restart_policy.1 initSup (some 1) rfl rfl).1 (by decide)
    rw [h]
    decide
  · exact C3_restart_policy.2 initSup _ (Or.inr rfl)

/-- Claim C4: every successful transition to ready resets the
consecutive-failure counter to zero, and the trace crash → restart → ready →
crash yields attempt number 1 both times, each scheduled with the base
2000 ms delay. -/
theorem C4_ready_resets_retry_budget :
    (∀ s : SupervisorState, (handleReady s).1.retryCount = 0) ∧
    runSup initSup
        [SupEvent.procExit (some 1), SupEvent.restartFires,
         SupEvent.becameReady, SupEvent.procExit (some 1)] =
      [Action.emitStatusRetrying 1 3, Action.scheduleRestart 1 2000,
       Action.emitStatusReady,
       Action.emitStatusRetrying 1 3, Action.scheduleRestart 1 2000] :=
  ⟨fun _ => rfl, by decide⟩

/-- Claim C5: a request issued while the bridge is not ready fails with the
not-ready error and fetches nothing, and the same holds for the operations
built on it — `getVideoInfo`, `startDownload` (which also leaves the tracked
set and polling flag untouched) and `cancelDownload`. -/
theorem C5_not_ready_rejects_without_io (s : BridgeState) (net : Net)
    (endpoint url downloadId : String) (h : s.ready = false) :
    request s.ready net endpoint = (Except.error BridgeError.notReady, []) ∧
    getVideoInfo s.ready net url = (Except.error BridgeError.notReady, []) ∧
    startDownload s net = (s, Except.error BridgeError.notReady, []) ∧
    cancelDownload s net downloadId = (s, Except.error BridgeError.notReady, []) := by
  have hreq : ∀ ep, request s.ready net ep = (Except.error BridgeError.notReady, []) :=
    fun ep => by simp [request, h]
  refine ⟨hreq endpoint, ?_, ?_, ?_⟩
  · simp [getVideoInfo, hreq]
  · simp [startDownload, hreq]
  · simp [cancelDownload, hreq]

/-- Claim C5, witness: the theorem applied to a not-ready bridge over a
worker oracle that would answer every request successfully. -/
theorem C5_not_ready_witness :
    startDownload { ready := false, activeDownloads := [], polling := false }
        (fun _ => { ok := true, status := 200, errorField := none,
                    messageField := none, body := "j1" }) =
      ({ ready := false, activeDownloads := [], polling := false },
       Except.error BridgeError.notReady, []) :=
  (C5_not_ready_rejects_without_io _ _ "/api/health" "u" "d" rfl).2.2.1

/-- Claim C6, counterexample.  The claim says cancelling removes the
identifier from the tracked set regardless of the outcome of the cancel
call.  On the code, `await this.request(...)` throws before the delete line
runs: cancelling tracked job "a" while the bridge is not ready fails with
the not-ready error and leaves "a" in the tracked set. -/
theorem C6_counterexample :
    (cancelDownload { ready := false, activeDownloads := ["a"], polling := true }
        (fun _ => { ok := true, status := 200, errorField := none,
                    messageField := none, body := "" }) "a").2.1 =
      Except.error BridgeError.notReady ∧
    "a" ∈ (cancelDownload { ready := false, activeDownloads := ["a"], polling := true }
        (fun _ => { ok := true, status := 200, errorField := none,
                    messageField := none, body := "" }) "a").1.activeDownloads := by
  decide

/-- Claim C6 (amended): cancelling a job removes the identifier from the
tracked set only when the cancel call succeeds — in that case exactly the
cancel endpoint is fetched and the identifier erased; when the call fails
(not ready, or a worker error) the state, tracked set included, is
unchanged. -/
theorem C6_cancel_removes_only_on_success (s : BridgeState) (net : Net)
    (downloadId : String) :
    ((cancelDownload s net downloadId).2.1 = Except.ok Unit.unit →
      (cancelDownload s net downloadId).1.activeDownloads =
        s.activeDownloads.erase downloadId ∧
      (cancelDownload s net downloadId).2.2 = ["/api/download/cancel"]) ∧
    (∀ e, (cancelDownload s net downloadId).2.1 = Except.error e →
      (cancelDownload s net downloadId).1 = s) := by
  rcases hreq : request s.ready net "/api/download/cancel" with ⟨res, reqs⟩
  cases res with
  | error e =>
    constructor
    · intro hok
      simp [cancelDownload, hreq] at hok
    · intro e2 _
      simp [cancelDownload, hreq]
  | ok b =>
    constructor
    · intro _
      refine ⟨by simp [cancelDownload, hreq], ?_⟩
      have : reqs = ["/api/download/cancel"] := request_ok_fetches _ _ _ _ _ hreq
      simp [cancelDownload, hreq, this]
    · intro e2 he
      simp [cancelDownload, hreq] at he

/-- Claim C6, witness: the amended theorem applied to a ready bridge whose
worker accepts the cancel, and to a not-ready bridge where the call fails. -/
theorem C6_cancel_witness :
    (cancelDownload { ready := true, activeDownloads := ["a"], polling := true }
        (fun _ => { ok := true, status := 200, errorField := none,
                    messageField := none, body := "ok" }) "a").1.activeDownloads =
      List.erase ["a"] "a" ∧
    (cancelDownload { ready := false, activeDownloads := ["a"], polling := true }
        (fun _ => { ok := true, status := 200, errorField := none,
                    messageField := none, body := "ok" }) "a").1 =
      { ready := false, activeDownloads := ["a"], polling := true } :=
  ⟨((C6_cancel_removes_only_on_success _ _ _).1 (by decide)).1,
   (C6_cancel_removes_only_on_success _ _ _).2 BridgeError.notReady (by decide)⟩

/-- Claim C7, counterexample.  The claim says a readiness timeout leads to a
scheduled restart attempt, like a crash.  On the code, when every health
probe fails while the child stays alive, `waitForServer` throws the
readiness timeout, the `catch` block of `start()` emits one status error and
rethrows, and no restart is scheduled — restarts are queued only by the
process exit handler, which never fires here. -/
theorem C7_counterexample :
    waitForServer ⟨fun _ => true, fun _ => none, fun _ => false⟩ 60 500 =
      Except.error (StartError.readinessTimeout 30000) ∧
    ∀ a ∈ startAttemptActions ⟨fun _ => true, fun _ => none, fun _ => false⟩,
      a.isScheduleRestart = false := by
  decide

/-- Claim C7 (amended): when the health endpoint never answers successfully
within the 60-attempt, 500 ms budget and the worker process stays alive, the
start attempt fails with the readiness timeout, its host-visible actions
contain no scheduled restart, and the exit handler schedules nothing unless
auto-restart is on and the exit code is a non-null nonzero crash — so a
readiness timeout leaves the supervisor non-ready with no retry. -/
theorem C7_readiness_timeout_schedules_no_restart (env : ProbeEnv)
    (halive : ∀ i, env.alive i = true) (hprobe : ∀ i, env.probeOk i = false) :
    waitForServer env 60 500 = Except.error (StartError.readinessTimeout 30000) ∧
    (∀ a ∈ startAttemptActions env, a.isScheduleRestart = false) ∧
    (∀ (s : SupervisorState) (code : Option Int),
        s.shouldRestart = false ∨ isCrashExit code = false →
        (handleExit s code).2 = []) := by
  have hw : waitForServer env 60 500 =
      Except.error (StartError.readinessTimeout 30000) := by
    simpa [waitForServer] using
      waitForServerAux_all_fail env 500 (60 * 500) halive hprobe 60 0
  refine ⟨hw, ?_, ?_⟩
  · intro a ha
    simp [startAttemptActions, hw] at ha
    subst ha
    rfl
  · intro s code h
    rcases h with h | h <;> simp [handleExit, h]

/-- Claim C7, witness: the amended theorem applied to the environment where
every probe fails and the child never exits. -/
theorem C7_readiness_timeout_witness :
    waitForServer ⟨fun _ => true, fun _ => some 0, fun _ => false⟩ 60 500 =
      Except.error (StartError.readinessTimeout 30000) :=
  (C7_readiness_timeout_schedules_no_restart _ (fun _ => rfl) (fun _ => rfl)).1

/-- Claim C8, counterexample.  The claim says packaged-mode start fails for
every size that does not exceed 10 MiB.  On the code the check is
`stats.size < MIN_EXE_SIZE`, so an executable of exactly 10 * 1024 * 1024
bytes — a size that does not exceed the threshold — passes the check and
the start proceeds. -/
theorem C8_counterexample :
    verifyExecutable false true (10 * 1024 * 1024) "yt-helper-backend" =
      Except.ok Unit.unit ∧
    10 * 1024 * 1024 ≤ MIN_EXE_SIZE := by
  decide

/-- Claim C8 (amended): in packaged mode the start attempt fails with the
corrupt-executable error exactly when the resolved executable's size is
strictly below 10 MiB; at exactly the threshold or above it proceeds; in
development mode no size check is performed. -/
theorem C8_size_check_strict (size : Nat) (path : String) :
    (verifyExecutable false true size path =
        Except.error (StartError.corruptExecutable size) ↔ size < MIN_EXE_SIZE) ∧
    (MIN_EXE_SIZE ≤ size →
        verifyExecutable false true size path = Except.ok Unit.unit) ∧
    verifyExecutable true true size path = Except.ok Unit.unit := by
  refine ⟨?_, ?_, ?_⟩
  · by_cases h : size < MIN_EXE_SIZE
    · simp [verifyExecutable, h]
    · simp [verifyExecutable, h]
  · intro h
    have hn : ¬ size < MIN_EXE_SIZE := by omega
    simp [verifyExecutable, hn]
  · simp [verifyExecutable]

/-- Claim C8, witness: the amended theorem applied at a 0-byte executable
(rejected) and at exactly the 10 MiB threshold (accepted). -/
theorem C8_size_check_witness :
    verifyExecutable false true 0 "p" =
      Except.error (StartError.corruptExecutable 0) ∧
    verifyExecutable false true MIN_EXE_SIZE "p" = Except.ok Unit.unit :=
  ⟨(C8_size_check_strict 0 "p").1.mpr (by decide),
   (C8_size_check_strict MIN_EXE_SIZE "p").2.1 (Nat.le_refl _)⟩

/-- Claim C9: stop resolves either when the process confirms exit or when
the 5000 ms overall timeout elapses, whichever comes first — never later
than 5000 ms, even for a child that ignores graceful and forced termination
— and the process handle is cleared by the time it resolves. -/
theorem C9_stop_resolves_bounded (hasProc : Bool) (exitTime : Option Nat) :
    (stopModel hasProc exitTime).resolveTime ≤ 5000 ∧
    (stopModel hasProc exitTime).handleAtResolve = none ∧
    (∀ te, exitTime = some te →
        (stopModel true exitTime).resolveTime = min te 5000) ∧
    (exitTime = none → (stopModel true exitTime).resolveTime = 5000) := by
  refine ⟨?_, ?_, ?_, ?_⟩
  · cases hasProc <;> cases exitTime <;>
      simp [stopModel, stopResolveTimes, StopCallback.fires, StopCallback.resolvesStop]
  · cases hasProc <;> simp [stopModel]
  · intro te hte
    subst hte
    simp [stopModel, stopResolveTimes, StopCallback.fires, StopCallback.resolvesStop]
  · intro hte
    subst hte
    simp [stopModel, stopResolveTimes, StopCallback.fires, StopCallback.resolvesStop]

/-- Claim C9, witness: the theorem applied to a child that exits at 1200 ms
(stop resolves then) and to one that never exits (stop resolves at the
5000 ms deadline, handle cleared). -/
theorem C9_stop_witness :
    (stopModel true (some 1200)).resolveTime = min 1200 5000 ∧
    (stopModel true none).resolveTime = 5000 ∧
    (stopModel true none).handleAtResolve = none :=
  ⟨(C9_stop_resolves_bounded true (some 1200)).2.2.1 1200 rfl,
   (C9_stop_resolves_bounded true none).2.2.2 rfl,
   (C9_stop_resolves_bounded true none).2.1⟩

/-- Claim C10: startDownload is atomic on error — when the start-job call
fails, the bridge state (tracked set and polling flag included) is returned
unchanged; when it succeeds the returned identifier is tracked and the poll
loop is ensured running. -/
theorem C10_startDownload_atomic_on_error (s : BridgeState) (net : Net) :
    (∀ e, (startDownload s net).2.1 = Except.error e → (startDownload s net).1 = s) ∧
    (∀ id, (startDownload s net).2.1 = Except.ok id →
        id ∈ (startDownload s net).1.activeDownloads ∧
        (startDownload s net).1.polling = true) := by
  rcases hreq : request s.ready net "/api/download/start" with ⟨res, reqs⟩
  cases res with
  | error e =>
    constructor
    · intro e2 _
      simp [startDownload, hreq]
    · intro id hid
      simp [startDownload, hreq] at hid
  | ok b =>
    constructor
    · intro e2 he
      simp [startDownload, hreq] at he
    · intro id hid
      simp [startDownload, hreq] at hid
      subst hid
      constructor
      · by_cases hb : b ∈ s.activeDownloads <;>
          simp [startDownload, hreq, jsSetAdd, hb]
      · simp [startDownload, hreq]

/-- Claim C10, witness: the theorem applied to a failing call (not-ready
bridge, state unchanged) and to a successful call (identifier tracked). -/
theorem C10_startDownload_witness :
    (startDownload { ready := false, activeDownloads := [], polling := false }
        (fun _ => { ok := true, status := 200, errorField := none,
                    messageField := none, body := "j1" })).1 =
      { ready := false, activeDownloads := [], polling := false } ∧
    "j1" ∈ (startDownload { ready := true, activeDownloads := [], polling := false }
        (fun _ => { ok := true, status := 200, errorField := none,
                    messageField := none, body := "j1" })).1.activeDownloads :=
  ⟨(C10_startDownload_atomic_on_error _ _).1 BridgeError.notReady (by decide),
   ((C10_startDownload_atomic_on_error _ _).2 "j1" (by decide)).1⟩

end YtHelper
